import Mathlib

/-!
Shallow embedding of Clementine's `OrganiseDialog` (src/src/ui/organisedialog.cpp)
together with a spec-modelled fragment of the `OrganiseFormat` template engine,
and proofs of the claims about them.
-/

set_option maxRecDepth 4000

namespace Clementine

/-- A URL as the dialog sees it: whether the whole URL is empty (`QUrl::isEmpty`),
its scheme (`QUrl::scheme`), and its local-file form (`QUrl::toLocalFile`). -/
structure Url where
  emptyUrl : Bool
  scheme : String
  localFile : String
deriving DecidableEq

/-- A metadata record / song, with the fields `OrganiseDialog` and the
template engine consult.  `valid` models `Song::is_valid()` after
`InitFromFile`; `url` models `QUrl(song.filename())`. -/
structure Song where
  url : Url
  filesize : Int
  valid : Bool
  artist : String
  album : String
  albumartist : String
  composer : String
  title : String
  genre : String
  comment : String
  extension : String
  track : Int
  disc : Int
  bpm : Int
  year : Int
  length : Int
  bitrate : Int
  samplerate : Int
deriving DecidableEq

/-- A storage target as the dialog sees it (`MusicStorage::LocalPath`). -/
structure MusicStorage where
  localPath : String
deriving DecidableEq

/-- The compiled format object: template string plus the three sanitization
flags, exactly the state the `set_format` / `set_replace_*` setters maintain. -/
structure OrganiseFormat where
  format : String
  replace_non_ascii : Bool
  replace_spaces : Bool
  replace_the : Bool
deriving DecidableEq

/-- Modelled from the spec: the registry of recognized tag names of the
Format Template grammar (`%name` must be one of these). -/
def tagNames : List String :=
  ["title", "album", "artist", "artistinitial", "albumartist", "composer",
   "track", "disc", "bpm", "year", "genre", "comment", "length", "bitrate",
   "samplerate", "extension"]

/-- Modelled from the spec: an atom of a compiled template — a literal
character or a tag reference. -/
inductive Atom where
  | lit (c : Char)
  | tag (name : String)
deriving DecidableEq

/-- Modelled from the spec: a compiled template segment — an atom, or a
single-level conditional block of atoms (deeper nesting is rejected by the
parser, the documented deterministic choice). -/
inductive Segment where
  | atom (a : Atom)
  | block (inner : List Atom)
deriving DecidableEq

/-- Longest prefix of lowercase letters, and the remainder. -/
def spanLower : List Char → List Char × List Char
  | [] => ([], [])
  | c :: rest =>
    if c.isLower then ((c :: (spanLower rest).1), (spanLower rest).2)
    else ([], c :: rest)

/-- Modelled from the spec: parse the inside of a conditional block up to the
closing brace.  `none` on an unrecognized tag, a nested opening brace, or a
missing closing brace.  Fuel-driven; each step consumes at least one input
character, so `length + 1` fuel always suffices. -/
def parseAtomsF : Nat → List Char → Option (List Atom × List Char)
  | 0, _ => none
  | _ + 1, [] => none
  | fuel + 1, c :: rest =>
    if c = '\x7d' then some ([], rest)
    else if c = '\x7b' then none
    else if c = '%' then
      let p := spanLower rest
      if p.1.isEmpty then none
      else if tagNames.contains (String.mk p.1) then
        match parseAtomsF fuel p.2 with
        | some (as, r2) => some (Atom.tag (String.mk p.1) :: as, r2)
        | none => none
      else none
    else
      match parseAtomsF fuel rest with
      | some (as, r2) => some (Atom.lit c :: as, r2)
      | none => none

/-- Modelled from the spec: parse a top-level template into segments.
`none` on an unbalanced brace or an unrecognized `%name`. -/
def parseTopF : Nat → List Char → Option (List Segment)
  | 0, _ => none
  | _ + 1, [] => some []
  | fuel + 1, c :: rest =>
    if c = '\x7d' then none
    else if c = '\x7b' then
      match parseAtomsF fuel rest with
      | some (as, r2) =>
        match parseTopF fuel r2 with
        | some segs => some (Segment.block as :: segs)
        | none => none
      | none => none
    else if c = '%' then
      let p := spanLower rest
      if p.1.isEmpty then none
      else if tagNames.contains (String.mk p.1) then
        match parseTopF fuel p.2 with
        | some segs => some (Segment.atom (Atom.tag (String.mk p.1)) :: segs)
        | none => none
      else none
    else
      match parseTopF fuel rest with
      | some segs => some (Segment.atom (Atom.lit c) :: segs)
      | none => none

/-- Modelled from the spec: compile the format string of `f` into segments. -/
def OrganiseFormat.parseFormat (f : OrganiseFormat) : Option (List Segment) :=
  parseTopF (f.format.length + 1) f.format.toList

/-- Does a segment contain a tag reference (inside or outside a block)? -/
def segHasTag : Segment → Bool
  | .atom (Atom.tag _) => true
  | .atom (Atom.lit _) => false
  | .block as => as.any fun a => match a with | Atom.tag _ => true | Atom.lit _ => false

/-- Modelled from the spec: a template is valid iff it parses without
structural error and contains at least one tag reference anywhere. -/
def OrganiseFormat.IsValid (f : OrganiseFormat) : Bool :=
  match f.parseFormat with
  | none => false
  | some segs => segs.any segHasTag

/-- Derived artist initial: first character of the artist, uppercased. -/
def artistInitialOf (artist : String) : String :=
  match artist.toList with
  | [] => ""
  | c :: _ => String.mk [c.toUpper]

/-- Modelled from the spec: numeric tags render as positive integers, with
zero or negative meaning "absent" (empty string). -/
def renderNum (n : Int) : String :=
  if n ≤ 0 then "" else toString n

/-- Two-digit zero-padded rendering of a small number. -/
def pad2 (n : Nat) : String :=
  if n < 10 then "0" ++ toString n else toString n

/-- Modelled from the spec: length renders as `H:MM:SS` or `MM:SS`. -/
def renderLength (secs : Int) : String :=
  if secs ≤ 0 then ""
  else
    let t := secs.toNat
    let h := t / 3600
    let m := (t % 3600) / 60
    let s := t % 60
    if h = 0 then toString m ++ ":" ++ pad2 s
    else toString h ++ ":" ++ pad2 m ++ ":" ++ pad2 s

/-- Modelled from the spec: resolve a tag name against a metadata record;
absent fields resolve to the empty string. -/
def resolveTag (song : Song) (name : String) : String :=
  if name = "title" then song.title
  else if name = "album" then song.album
  else if name = "artist" then song.artist
  else if name = "artistinitial" then artistInitialOf song.artist
  else if name = "albumartist" then song.albumartist
  else if name = "composer" then song.composer
  else if name = "track" then renderNum song.track
  else if name = "disc" then renderNum song.disc
  else if name = "bpm" then renderNum song.bpm
  else if name = "year" then renderNum song.year
  else if name = "genre" then song.genre
  else if name = "comment" then song.comment
  else if name = "length" then renderLength song.length
  else if name = "bitrate" then renderNum song.bitrate
  else if name = "samplerate" then renderNum song.samplerate
  else if name = "extension" then song.extension
  else ""

/-- Do all tag references among these atoms resolve to a non-empty value? -/
def atomsAllResolve (song : Song) (as : List Atom) : Bool :=
  as.all fun a =>
    match a with
    | Atom.lit _ => true
    | Atom.tag n => !(resolveTag song n).isEmpty

/-- Evaluate one atom against a record. -/
def evalAtom (song : Song) : Atom → String
  | Atom.lit c => String.mk [c]
  | Atom.tag n => resolveTag song n

/-- Evaluate a list of atoms (the body of a block) against a record. -/
def evalAtoms (song : Song) (as : List Atom) : String :=
  String.join (as.map (evalAtom song))

/-- Modelled from the spec: a block renders, literals included, only when
every tag reference inside it resolves non-empty; otherwise it emits
nothing at all. -/
def evalSeg (song : Song) : Segment → String
  | Segment.atom a => evalAtom song a
  | Segment.block as => if atomsAllResolve song as then evalAtoms song as else ""

/-- Evaluate one path component of a template. -/
def evalComponent (song : Song) (segs : List Segment) : String :=
  String.join (segs.map (evalSeg song))

/-- Prepend a segment onto the first path component. -/
def addHead (s : Segment) : List (List Segment) → List (List Segment)
  | [] => [[s]]
  | comp :: comps => (s :: comp) :: comps

/-- Split a compiled template into path components at literal `/`
characters: the template's separators are the directory boundaries. -/
def splitSlash : List Segment → List (List Segment)
  | [] => [[]]
  | Segment.atom (Atom.lit c) :: rest =>
    if c = '/' then [] :: splitSlash rest
    else addHead (Segment.atom (Atom.lit c)) (splitSlash rest)
  | s :: rest => addHead s (splitSlash rest)

/-- Modelled from the spec: characters illegal on common filesystems — and
`/`, so that tag values and block literals cannot introduce directory
boundaries — are replaced with the safe placeholder `_`. -/
def cleanChar (c : Char) : Char :=
  if c = '/' ∨ c = '\\' ∨ c = ':' ∨ c = '*' ∨ c = '?' ∨ c = '\"' ∨ c = '<' ∨
     c = '>' ∨ c = '|' ∨ c.toNat < 32 then '_' else c

/-- Clean every character of a string. -/
def cleanString (s : String) : String :=
  String.mk (s.toList.map cleanChar)

/-- Does the string start with a case-insensitive `"The "`? -/
def hasThePrefixCI (s : String) : Bool :=
  match s.toList with
  | t :: h :: e :: sp :: _ =>
    (t.toLower = 't' && h.toLower = 'h' && e.toLower = 'e' && sp = ' ')
  | _ => false

/-- Strip a case-insensitive leading `"The "`. -/
def stripThe (s : String) : String :=
  if hasThePrefixCI s then String.mk (s.toList.drop 4) else s

/-- Replace a non-ASCII character with the placeholder. -/
def asciiChar (c : Char) : Char :=
  if c.toNat ≥ 128 then '_' else c

/-- Replace a space with the fixed separator. -/
def spaceChar (c : Char) : Char :=
  if c = ' ' then '_' else c

/-- Modelled from the spec: per-component sanitization — illegal characters
replaced independent of flags, then the three flag-controlled passes, and an
empty or reserved (`.`/`..`) component collapses to the safe placeholder. -/
def sanitizeComponent (f : OrganiseFormat) (s : String) : String :=
  let s1 := cleanString s
  let s2 := if f.replace_the then stripThe s1 else s1
  let s3 := if f.replace_non_ascii then String.mk (s2.toList.map asciiChar) else s2
  let s4 := if f.replace_spaces then String.mk (s3.toList.map spaceChar) else s3
  if s4 = "" ∨ s4 = "." ∨ s4 = ".." then "_" else s4

/-- Modelled from the spec: instantiate the compiled template against a
record — evaluate each path component, sanitize each, and join them with
`/`.  Total: an invalid template yields the empty string (the dialog never
calls it on one). -/
def OrganiseFormat.GetFilenameForSong (f : OrganiseFormat) (song : Song) : String :=
  match f.parseFormat with
  | none => ""
  | some segs =>
    String.intercalate "/"
      ((splitSlash segs).map (fun comp => sanitizeComponent f (evalComponent song comp)))

/-- `OrganiseDialog::kNumberOfPreviews`. -/
def kNumberOfPreviews : Nat := 10

/-- `OrganiseDialog::kDefaultFormat`. -/
def kDefaultFormat : String :=
  "%artist/%album\x7b (Disc %disc)\x7d/\x7b%track - \x7d%title.%extension"

mutual

/-- A filesystem node as `LoadPreviewSongs` traverses it: a plain file whose
metadata read yields `song` (with `song.valid` false when unreadable), or a
directory with named entries, each flagged readable or not. -/
inductive FSNode where
  | file (song : Song)
  | dir (entries : List DirEntry)

/-- One directory entry: its name, whether it is readable, and its node. -/
inductive DirEntry where
  | mk (name : String) (readable : Bool) (node : FSNode)

end

/-- The widget state of the dialog that the modelled slots read and write. -/
structure DialogUi where
  namingText : String
  replaceAscii : Bool
  replaceSpaces : Bool
  replaceThe : Bool
  overwrite : Bool
  ejectAfter : Bool
  aftercopyingIndex : Nat
  previewItems : List String
  previewGroupVisible : Bool
  namingGroupVisible : Bool
  freeSpaceVisible : Bool
  freeSpaceFree : Nat
  freeSpaceTotal : Nat
  freeSpaceAdditional : Nat
  okEnabled : Bool
deriving DecidableEq

/-- The dialog's own members: widget state, `filenames_`, `preview_songs_`,
`total_size_` and the `format_` member object. -/
structure DialogState where
  ui : DialogUi
  filenames : List String
  previewSongs : List Song
  totalSize : Nat
  fmt : OrganiseFormat

/-- What the currently selected destination row of the model reports:
`Role_Storage`, `Role_Capacity` and `Role_FreeSpace`. -/
structure Destination where
  storage : Option MusicStorage
  capacity : Nat
  free : Nat

/-- The format object as `UpdatePreviews` rebuilds it from the widgets via
`set_format` / `set_replace_non_ascii` / `set_replace_spaces` /
`set_replace_the`. -/
def formatFromUi (ui : DialogUi) : OrganiseFormat :=
  { format := ui.namingText
    replace_non_ascii := ui.replaceAscii
    replace_spaces := ui.replaceSpaces
    replace_the := ui.replaceThe }

/-- `OrganiseDialog::UpdatePreviews`: refresh the free-space bar, rebuild the
format object, decide the Ok button, and — only for a valid format — rebuild
the preview list and the group visibilities. -/
def updatePreviews (st : DialogState) (dest : Destination) : DialogState :=
  let storage := dest.storage
  let has_local_destination :=
    match storage with
    | some s => !(s.localPath.isEmpty)
    | none => false
  let capacity := dest.capacity
  let free := dest.free
  let ui1 :=
    if capacity = 0 then { st.ui with freeSpaceVisible := false }
    else { st.ui with freeSpaceVisible := true, freeSpaceFree := free,
                      freeSpaceTotal := capacity }
  let fmt := formatFromUi st.ui
  let format_valid := fmt.IsValid
  let ok0 := format_valid && storage.isSome && !(st.filenames.isEmpty)
  let ok := if capacity ≠ 0 ∧ st.totalSize > free then false else ok0
  let ui2 := { ui1 with okEnabled := ok }
  if format_valid = false then { st with ui := ui2, fmt := fmt }
  else
    let items :=
      match storage with
      | some s =>
        if s.localPath.isEmpty then []
        else st.previewSongs.map
          (fun song => s.localPath ++ "/" ++ fmt.GetFilenameForSong song)
      | none => []
    { st with
      fmt := fmt
      ui := { ui2 with previewItems := items
                       previewGroupVisible := has_local_destination
                       namingGroupVisible := has_local_destination } }

mutual

/-- `OrganiseDialog::LoadPreviewSongs`, over the filesystem tree: bail out at
`kNumberOfPreviews` loaded songs; recurse through a directory's readable
entries other than `.` and `..`; append a file's song when it is valid. -/
def loadPreview : FSNode → List Song → List Song
  | FSNode.file song, st =>
    if kNumberOfPreviews ≤ st.length then st
    else if song.valid then st ++ [song] else st
  | FSNode.dir entries, st =>
    if kNumberOfPreviews ≤ st.length then st
    else loadEntries entries st

def loadEntries : List DirEntry → List Song → List Song
  | [], st => st
  | DirEntry.mk name readable node :: rest, st =>
    let st2 :=
      if readable && !(name == ".") && !(name == "..") then loadPreview node st
      else st
    loadEntries rest st2

end

/-- Process a plain list of nodes in order, threading the loaded songs. -/
def loadList (nodes : List FSNode) (st : List Song) : List Song :=
  nodes.foldl (fun acc node => loadPreview node acc) st

/-- The nodes of a directory's entries that `QDir::entryList` with
`Readable | NoDotAndDotDot` yields, in order. -/
def entryNodes : List DirEntry → List FSNode
  | [] => []
  | DirEntry.mk name readable node :: rest =>
    if readable && !(name == ".") && !(name == "..") then node :: entryNodes rest
    else entryNodes rest

/-- `OrganiseDialog::SetFilenames`: record the filenames, reload at most
`kNumberOfPreviews` preview songs from the first ten filenames, record the
total size on the free-space bar and in `total_size_`, then refresh.
`fs` resolves a filename to its filesystem node. -/
def setFilenames (fs : String → FSNode) (dest : Destination)
    (filenames : List String) (total : Nat) (st : DialogState) : DialogState :=
  let n := min filenames.length kNumberOfPreviews
  let songs := loadList ((filenames.take n).map fs) []
  let st2 :=
    { st with
      filenames := filenames
      previewSongs := songs
      totalSize := total
      ui := { st.ui with freeSpaceAdditional := total } }
  updatePreviews st2 dest

/-- One step of the `SetSongs` loop: skip a song with an empty URL or a
non-local scheme; add a strictly positive file size into the 64-bit total;
append the local-file form of the URL. -/
def setSongsStep (acc : Nat × List String) (s : Song) : Nat × List String :=
  if s.url.emptyUrl then acc
  else if !(s.url.scheme == "") && !(s.url.scheme == "file") then acc
  else
    let t := if s.filesize > 0 then (acc.1 + s.filesize.toNat) % 2 ^ 64 else acc.1
    (t, acc.2 ++ [s.url.localFile])

/-- The total size and filename list `OrganiseDialog::SetSongs` computes. -/
def setSongsCompute (songs : List Song) : Nat × List String :=
  songs.foldl setSongsStep (0, [])

/-- `OrganiseDialog::SetSongs`: compute the filtered filenames and total,
then hand them to `SetFilenames`. -/
def setSongs (fs : String → FSNode) (dest : Destination)
    (songs : List Song) (st : DialogState) : DialogState :=
  setFilenames fs dest (setSongsCompute songs).2 (setSongsCompute songs).1 st

/-- Is a song kept by the `SetSongs` loop (URL non-empty, scheme empty or
`file`)? -/
def songKept (s : Song) : Bool :=
  !s.url.emptyUrl && (s.url.scheme == "" || s.url.scheme == "file")

/-- `OrganiseDialog::Reset`: restore the default template and flags. -/
def resetDialog (ui : DialogUi) : DialogUi :=
  { ui with
    namingText := kDefaultFormat
    replaceAscii := false
    replaceSpaces := false
    replaceThe := false
    overwrite := true
    ejectAfter := false }

/-- The parameters `OrganiseDialog::accept` passes to the `Organise`
constructor. -/
structure OrganiseRequest where
  storage : Option MusicStorage
  format : OrganiseFormat
  copy : Bool
  overwrite : Bool
  filenames : List String
  eject_after : Bool
deriving DecidableEq

/-- The observable effects of `OrganiseDialog::accept`: the settings written
to persistent storage and the batches constructed and started. -/
structure AcceptResult where
  savedFormat : String
  savedReplaceAscii : Bool
  savedReplaceSpaces : Bool
  savedReplaceThe : Bool
  savedOverwrite : Bool
  savedEjectAfter : Bool
  started : List OrganiseRequest

/-- `OrganiseDialog::accept`: save the settings, then construct one
`Organise` batch from the member `format_`, the after-copying selector, the
overwrite and eject flags and the stored filenames, and start it. -/
def acceptDialog (st : DialogState) (dest : Destination) : AcceptResult :=
  { savedFormat := st.ui.namingText
    savedReplaceAscii := st.ui.replaceAscii
    savedReplaceSpaces := st.ui.replaceSpaces
    savedReplaceThe := st.ui.replaceThe
    savedOverwrite := st.ui.overwrite
    savedEjectAfter := st.ui.ejectAfter
    started :=
      [{ storage := dest.storage
         format := st.fmt
         copy := st.ui.aftercopyingIndex == 0
         overwrite := st.ui.overwrite
         filenames := st.filenames
         eject_after := st.ui.ejectAfter }] }

/-! ### Concrete fixtures used by witnesses and counterexamples -/

/-- A record with every field absent and a valid, empty-URL source. -/
def songBase : Song :=
  { url := { emptyUrl := true, scheme := "", localFile := "" }
    filesize := 0
    valid := true
    artist := ""
    album := ""
    albumartist := ""
    composer := ""
    title := ""
    genre := ""
    comment := ""
    extension := ""
    track := 0
    disc := 0
    bpm := 0
    year := 0
    length := 0
    bitrate := 0
    samplerate := 0 }

/-- A record with artist/album/title known and disc absent. -/
def songFoo : Song :=
  { songBase with artist := "Foo", album := "Album", title := "Title", extension := "mp3" }

/-- `songFoo` with disc 2. -/
def songFooDisc2 : Song :=
  { songFoo with disc := 2 }

/-- An unreadable / invalid song (metadata could not be read). -/
def songInvalid : Song :=
  { songBase with valid := false }

/-- The spec's conditional-block example template. -/
def tmplC2 : String := "%artist/%album\x7b (Disc %disc)\x7d/%title"

/-- The compiled form of `tmplC2` with all sanitization flags off. -/
def fmtC2 : OrganiseFormat :=
  { format := tmplC2
    replace_non_ascii := false
    replace_spaces := false
    replace_the := false }

/-- The segments `tmplC2` compiles to. -/
def tmplC2segs : List Segment :=
  [Segment.atom (Atom.tag "artist"),
   Segment.atom (Atom.lit '/'),
   Segment.atom (Atom.tag "album"),
   Segment.block
     [Atom.lit ' ', Atom.lit '(', Atom.lit 'D', Atom.lit 'i', Atom.lit 's',
      Atom.lit 'c', Atom.lit ' ', Atom.tag "disc", Atom.lit ')'],
   Segment.atom (Atom.lit '/'),
   Segment.atom (Atom.tag "title")]

/-- Widget state with the default template and flags and no previews. -/
def uiBase : DialogUi :=
  { namingText := kDefaultFormat
    replaceAscii := false
    replaceSpaces := false
    replaceThe := false
    overwrite := true
    ejectAfter := false
    aftercopyingIndex := 0
    previewItems := []
    previewGroupVisible := true
    namingGroupVisible := true
    freeSpaceVisible := false
    freeSpaceFree := 0
    freeSpaceTotal := 0
    freeSpaceAdditional := 0
    okEnabled := false }

/-- Widget state whose template has no tag reference (invalid). -/
def uiInvalid : DialogUi :=
  { uiBase with namingText := "no tags here", previewItems := ["stale"] }

/-- A dialog state with one source file, one preview song and 200 bytes. -/
def stBase : DialogState :=
  { ui := uiBase
    filenames := ["/music/a.mp3"]
    previewSongs := [songFoo]
    totalSize := 200
    fmt := formatFromUi uiBase }

/-- `stBase` with the invalid template. -/
def stInvalid : DialogState :=
  { stBase with ui := uiInvalid }

/-- A destination with a local root, capacity 1000 and free space 100. -/
def destSmall : Destination :=
  { storage := some { localPath := "/dest" }, capacity := 1000, free := 100 }

/-- A destination whose storage has no local root and unknown capacity. -/
def destNoLocal : Destination :=
  { storage := some { localPath := "" }, capacity := 0, free := 0 }

/-- Is a song counted into the total (kept and strictly positive size)? -/
def songCounted (s : Song) : Bool :=
  songKept s && decide (s.filesize > 0)

/-- A song backed by a local 100-byte file. -/
def songLocal : Song :=
  { songBase with
    url := { emptyUrl := false, scheme := "file", localFile := "/music/a.mp3" }
    filesize := 100 }

/-! ### Helper lemmas -/

/-- The Ok button state `UpdatePreviews` computes, in closed form. -/
theorem updatePreviews_okEnabled (st : DialogState) (dest : Destination) :
    (updatePreviews st dest).ui.okEnabled =
      if dest.capacity ≠ 0 ∧ st.totalSize > dest.free then false
      else (formatFromUi st.ui).IsValid && dest.storage.isSome && !(st.filenames.isEmpty) := by
  unfold updatePreviews
  dsimp only
  split <;> split <;> simp_all

/-- `UpdatePreviews` does not change the members it only reads. -/
theorem updatePreviews_preserved (st : DialogState) (dest : Destination) :
    (updatePreviews st dest).fmt = formatFromUi st.ui
    ∧ (updatePreviews st dest).filenames = st.filenames
    ∧ (updatePreviews st dest).previewSongs = st.previewSongs
    ∧ (updatePreviews st dest).totalSize = st.totalSize
    ∧ (updatePreviews st dest).ui.aftercopyingIndex = st.ui.aftercopyingIndex
    ∧ (updatePreviews st dest).ui.overwrite = st.ui.overwrite
    ∧ (updatePreviews st dest).ui.ejectAfter = st.ui.ejectAfter
    ∧ (updatePreviews st dest).ui.namingText = st.ui.namingText
    ∧ (updatePreviews st dest).ui.replaceAscii = st.ui.replaceAscii
    ∧ (updatePreviews st dest).ui.replaceSpaces = st.ui.replaceSpaces
    ∧ (updatePreviews st dest).ui.replaceThe = st.ui.replaceThe := by
  unfold updatePreviews
  dsimp only
  split <;> split <;> simp_all

mutual

/-- `LoadPreviewSongs` never grows the preview list beyond the cap. -/
theorem loadPreview_le : ∀ (node : FSNode) (st : List Song),
    st.length ≤ kNumberOfPreviews → (loadPreview node st).length ≤ kNumberOfPreviews
  | FSNode.file song, st, h => by
    rw [loadPreview]
    split
    · exact h
    · split
      · simp only [List.length_append, List.length_cons, List.length_nil]
        omega
      · exact h
  | FSNode.dir entries, st, h => by
    rw [loadPreview]
    split
    · exact h
    · exact loadEntries_le entries st h

/-- Companion bound for the entry loop. -/
theorem loadEntries_le : ∀ (es : List DirEntry) (st : List Song),
    st.length ≤ kNumberOfPreviews → (loadEntries es st).length ≤ kNumberOfPreviews
  | [], st, h => h
  | DirEntry.mk name readable node :: rest, st, h => by
    rw [loadEntries]
    split
    · exact loadEntries_le rest _ (loadPreview_le node st h)
    · exact loadEntries_le rest st h

end

/-- The entry loop is the plain fold over the filtered entry nodes. -/
theorem loadEntries_eq_loadList : ∀ (es : List DirEntry) (st : List Song),
    loadEntries es st = loadList (entryNodes es) st := by
  intro es
  induction es with
  | nil => intro st; rfl
  | cons e rest ih =>
    intro st
    obtain ⟨name, readable, node⟩ := e
    rw [loadEntries]
    by_cases h : (readable && !(name == ".") && !(name == "..")) = true
    · rw [if_pos h, ih, entryNodes, if_pos h]
      rfl
    · rw [if_neg h, ih, entryNodes, if_neg h]

/-- The fold bound for a plain node list. -/
theorem loadList_le (nodes : List FSNode) :
    ∀ (acc : List Song), acc.length ≤ kNumberOfPreviews →
      (loadList nodes acc).length ≤ kNumberOfPreviews := by
  induction nodes with
  | nil => intro acc h; exact h
  | cons n rest ih =>
    intro acc h
    simp only [loadList, List.foldl_cons]
    exact ih _ (loadPreview_le n acc h)

/-- Closed form of the `SetSongs` accumulation loop, for any starting
accumulator below `2 ^ 64`. -/
theorem setSongs_fold (songs : List Song) :
    ∀ (t : Nat) (fsn : List String), t < 2 ^ 64 →
    songs.foldl setSongsStep (t, fsn) =
      ((t + (((songs.filter songCounted).map (fun s => s.filesize.toNat)).sum)) % 2 ^ 64,
       fsn ++ (songs.filter songKept).map (fun s => s.url.localFile)) := by
  induction songs with
  | nil =>
    intro t fsn ht
    simp only [List.foldl_nil, List.filter_nil, List.map_nil, List.sum_nil,
      Nat.add_zero, List.append_nil]
    rw [Nat.mod_eq_of_lt ht]
  | cons s rest ih =>
    intro t fsn ht
    simp only [List.foldl_cons]
    by_cases h1 : s.url.emptyUrl = true
    · have hk : songKept s = false := by simp [songKept, h1]
      have hc : songCounted s = false := by simp [songCounted, hk]
      rw [setSongsStep, if_pos h1, ih t fsn ht]
      simp [List.filter_cons, hk, hc]
    · by_cases h2 : (!(s.url.scheme == "") && !(s.url.scheme == "file")) = true
      · have hk : songKept s = false := by
          simp only [songKept, Bool.and_eq_true, Bool.not_eq_true'] at h2 ⊢
          simp only [Bool.not_eq_true] at h1
          simp [h1, h2]
        have hc : songCounted s = false := by simp [songCounted, hk]
        rw [setSongsStep, if_neg h1, if_pos h2, ih t fsn ht]
        simp [List.filter_cons, hk, hc]
      · have hk : songKept s = true := by
          simp only [songKept, Bool.and_eq_true, Bool.not_eq_true] at h1 ⊢
          simp only [Bool.and_eq_true, Bool.not_eq_true'] at h2
          push_neg at h2
          refine ⟨by simp [h1], ?_⟩
          by_cases hs : s.url.scheme = ""
          · simp [hs]
          · simp [h2 (by simpa using hs)]
        rw [setSongsStep, if_neg h1, if_neg h2]
        dsimp only
        by_cases h3 : s.filesize > 0
        · have hc : songCounted s = true := by simp [songCounted, hk, h3]
          rw [if_pos h3]
          rw [ih ((t + s.filesize.toNat) % 2 ^ 64) (fsn ++ [s.url.localFile])
              (Nat.mod_lt _ (by positivity))]
          rw [List.filter_cons_of_pos (by simp [hc]), List.filter_cons_of_pos (by simp [hk])]
          simp only [List.map_cons, List.sum_cons, List.append_assoc, List.singleton_append]
          rw [Nat.mod_add_mod, Nat.add_assoc]
        · have hc : songCounted s = false := by
            simp [songCounted, h3]
          rw [if_neg h3]
          rw [ih t (fsn ++ [s.url.localFile]) ht]
          rw [List.filter_cons_of_neg (by simp [hc]), List.filter_cons_of_pos (by simp [hk])]
          simp

/-- `tmplC2` compiles to its expected segment list. -/
theorem parse_tmplC2 : fmtC2.parseFormat = some tmplC2segs := by rfl

/-- What `tmplC2` instantiates to, for an arbitrary record: the block
between `album` and the second separator contributes its full literal text
and the disc number when disc is present, and nothing when it is absent. -/
theorem getFilename_tmplC2 (r : Song) :
    fmtC2.GetFilenameForSong r =
      String.intercalate "/"
        [sanitizeComponent fmtC2 r.artist,
         sanitizeComponent fmtC2 (r.album ++
           (if renderNum r.disc = "" then ""
            else " (Disc " ++ renderNum r.disc ++ ")")),
         sanitizeComponent fmtC2 r.title] := by
  have hart : evalComponent r [Segment.atom (Atom.tag "artist")] = r.artist := by
    simp [evalComponent, evalSeg, evalAtom, resolveTag, String.join]
  have htit : evalComponent r [Segment.atom (Atom.tag "title")] = r.title := by
    simp [evalComponent, evalSeg, evalAtom, resolveTag, String.join]
  have halb : evalComponent r
        [Segment.atom (Atom.tag "album"),
         Segment.block
           [Atom.lit ' ', Atom.lit '(', Atom.lit 'D', Atom.lit 'i', Atom.lit 's',
            Atom.lit 'c', Atom.lit ' ', Atom.tag "disc", Atom.lit ')']] =
      r.album ++
        (if renderNum r.disc = "" then ""
         else " (Disc " ++ renderNum r.disc ++ ")") := by
    by_cases hd : renderNum r.disc = ""
    · have hres : atomsAllResolve r
          [Atom.lit ' ', Atom.lit '(', Atom.lit 'D', Atom.lit 'i', Atom.lit 's',
           Atom.lit 'c', Atom.lit ' ', Atom.tag "disc", Atom.lit ')'] = false := by
        simp [atomsAllResolve, resolveTag, String.isEmpty_iff, hd]
      simp [evalComponent, evalSeg, evalAtom, hres, resolveTag, String.join, hd]
    · have hie : (renderNum r.disc).isEmpty = false := by
        cases h2 : (renderNum r.disc).isEmpty
        · rfl
        · exact absurd ((String.isEmpty_iff _).mp h2) hd
      have hres : atomsAllResolve r
          [Atom.lit ' ', Atom.lit '(', Atom.lit 'D', Atom.lit 'i', Atom.lit 's',
           Atom.lit 'c', Atom.lit ' ', Atom.tag "disc", Atom.lit ')'] = true := by
        simp [atomsAllResolve, resolveTag, hie]
      simp [evalComponent, evalSeg, evalAtom, evalAtoms, hres, resolveTag, String.join, hd]
  unfold OrganiseFormat.GetFilenameForSong
  rw [parse_tmplC2]
  dsimp only
  rw [show splitSlash tmplC2segs =
      [[Segment.atom (Atom.tag "artist")],
       [Segment.atom (Atom.tag "album"),
        Segment.block
          [Atom.lit ' ', Atom.lit '(', Atom.lit 'D', Atom.lit 'i', Atom.lit 's',
           Atom.lit 'c', Atom.lit ' ', Atom.tag "disc", Atom.lit ')']],
       [Segment.atom (Atom.tag "title")]] from rfl]
  simp only [List.map_cons, List.map_nil]
  rw [hart, htit, halb]

/-! ### Claim theorems -/

/-- C1: after `UpdatePreviews`, the Ok (start-batch) control is enabled
exactly when the compiled template is valid, a storage target is selected,
the source filename list is non-empty, and it is not the case that the
target reports a non-zero capacity while the precomputed total size exceeds
the reported free space; in particular it is disabled while the template is
invalid, and while a non-zero-capacity target's free space is exceeded. -/
theorem c1_ok_button_exact :
    (∀ (st : DialogState) (dest : Destination),
      (updatePreviews st dest).ui.okEnabled = true ↔
        ((formatFromUi st.ui).IsValid = true ∧ dest.storage.isSome = true ∧
          st.filenames ≠ [] ∧ ¬(dest.capacity ≠ 0 ∧ st.totalSize > dest.free)))
    ∧ (∀ (st : DialogState) (dest : Destination),
        (formatFromUi st.ui).IsValid = false →
        (updatePreviews st dest).ui.okEnabled = false)
    ∧ (∀ (st : DialogState) (dest : Destination),
        dest.capacity ≠ 0 → st.totalSize > dest.free →
        (updatePreviews st dest).ui.okEnabled = false) := by
  refine ⟨?_, ?_, ?_⟩
  · intro st dest
    rw [updatePreviews_okEnabled]
    by_cases h : dest.capacity ≠ 0 ∧ st.totalSize > dest.free
    · simp [h]
    · simp [h, List.isEmpty_iff, and_assoc]
  · intro st dest h
    rw [updatePreviews_okEnabled, h]
    split <;> simp
  · intro st dest h1 h2
    rw [updatePreviews_okEnabled, if_pos ⟨h1, h2⟩]

/-- Witness for C1: on a concrete state whose 200-byte batch exceeds the
100 free bytes of a 1000-byte-capacity target, Ok is disabled. -/
theorem c1_ok_button_exact_witness :
    destSmall.capacity ≠ 0 ∧ stBase.totalSize > destSmall.free ∧
    (updatePreviews stBase destSmall).ui.okEnabled = false :=
  ⟨by decide, by decide, c1_ok_button_exact.2.2 stBase destSmall (by decide) (by decide)⟩

/-- C2: instantiating `%artist/%album{ (Disc %disc)}/%title` emits the
conditional block's rendered text exactly when every tag inside it (disc)
resolves non-empty, and emits nothing at all — literal text included — when
disc is absent; concretely, with disc absent the result is
`Foo/Album/Title` with no `(Disc` substring, and with disc 2 it is
`Foo/Album (Disc 2)/Title`. -/
theorem c2_conditional_block_elision :
    (∀ r : Song,
      fmtC2.GetFilenameForSong r =
        String.intercalate "/"
          [sanitizeComponent fmtC2 r.artist,
           sanitizeComponent fmtC2 (r.album ++
             (if renderNum r.disc = "" then ""
              else " (Disc " ++ renderNum r.disc ++ ")")),
           sanitizeComponent fmtC2 r.title])
    ∧ renderNum songFoo.disc = ""
    ∧ fmtC2.GetFilenameForSong songFoo = "Foo/Album/Title"
    ∧ ¬ ("(Disc".toList <:+: (fmtC2.GetFilenameForSong songFoo).toList)
    ∧ fmtC2.GetFilenameForSong songFooDisc2 = "Foo/Album (Disc 2)/Title" :=
  ⟨getFilename_tmplC2, by decide, by decide, by decide, by decide⟩

/-- C3 counterexample: on a target whose storage has an empty `LocalPath`,
even with a valid template, a loaded preview song and a non-empty filename
list, `UpdatePreviews` computes no destination path for preview — the
preview list comes out empty and hidden (while Ok can still be enabled), so
the dialog does not "compute destination paths for preview" for such a
target. -/
theorem c3_no_local_root_counterexample :
    (formatFromUi stBase.ui).IsValid = true
    ∧ stBase.previewSongs ≠ []
    ∧ stBase.filenames ≠ []
    ∧ destNoLocal.storage = some { localPath := "" }
    ∧ (updatePreviews stBase destNoLocal).ui.previewItems = []
    ∧ (updatePreviews stBase destNoLocal).ui.previewGroupVisible = false
    ∧ (updatePreviews stBase destNoLocal).ui.namingGroupVisible = false
    ∧ (updatePreviews stBase destNoLocal).ui.okEnabled = true := by
  refine ⟨by decide, by decide, by decide, by decide, by decide, by decide, by decide,
    by decide⟩

/-- C3 (amended): for a storage target with no local root, the dialog
computes no preview paths — it empties the preview list and hides the
preview and naming groups — while the Ok decision is unchanged by the
missing root (file writing is left to the engine and the target's
primitives). -/
theorem c3_no_local_root_amended (st : DialogState) (dest : Destination)
    (s : MusicStorage)
    (hs : dest.storage = some s) (hl : s.localPath = "")
    (hv : (formatFromUi st.ui).IsValid = true) :
    (updatePreviews st dest).ui.previewItems = []
    ∧ (updatePreviews st dest).ui.previewGroupVisible = false
    ∧ (updatePreviews st dest).ui.namingGroupVisible = false
    ∧ ((updatePreviews st dest).ui.okEnabled =
        if dest.capacity ≠ 0 ∧ st.totalSize > dest.free then false
        else (formatFromUi st.ui).IsValid && !(st.filenames.isEmpty)) := by
  have hok := updatePreviews_okEnabled st dest
  rw [hs] at hok
  have h3 : (updatePreviews st dest).ui.previewItems = []
      ∧ (updatePreviews st dest).ui.previewGroupVisible = false
      ∧ (updatePreviews st dest).ui.namingGroupVisible = false := by
    unfold updatePreviews
    rw [hs]
    dsimp only
    rw [hv, hl]
    simp [show ("" : String).isEmpty = true from rfl]
  refine ⟨h3.1, h3.2.1, h3.2.2, ?_⟩
  rw [hok]
  simp

/-- Witness for C3 (amended), at the concrete no-local-root target. -/
theorem c3_no_local_root_amended_witness :
    destNoLocal.storage = some { localPath := "" }
    ∧ (formatFromUi stBase.ui).IsValid = true
    ∧ ((updatePreviews stBase destNoLocal).ui.previewItems = []
       ∧ (updatePreviews stBase destNoLocal).ui.previewGroupVisible = false
       ∧ (updatePreviews stBase destNoLocal).ui.namingGroupVisible = false
       ∧ ((updatePreviews stBase destNoLocal).ui.okEnabled =
           if destNoLocal.capacity ≠ 0 ∧ stBase.totalSize > destNoLocal.free then false
           else (formatFromUi stBase.ui).IsValid && !(stBase.filenames.isEmpty))) :=
  ⟨rfl, by decide,
   c3_no_local_root_amended stBase destNoLocal { localPath := "" } rfl rfl (by decide)⟩

/-- C4: with a reported capacity of 0 (unknown/unbounded), the pre-flight
free-space comparison is skipped entirely — the Ok decision is independent
of the total size and the reported free bytes. -/
theorem c4_zero_capacity_skips_space_check
    (st : DialogState) (storage : Option MusicStorage) (free : Nat) :
    (updatePreviews st { storage := storage, capacity := 0, free := free }).ui.okEnabled =
      ((formatFromUi st.ui).IsValid && storage.isSome && !(st.filenames.isEmpty)) := by
  rw [updatePreviews_okEnabled]
  simp

/-- C5: `SetSongs` records as total the 64-bit sum of the file sizes of
exactly the songs with a local URL and strictly positive size (equal to the
plain sum whenever it fits in 64 bits), and records as filenames the
local-file forms of exactly the songs with a local URL, in original order;
both remain the recorded members after `SetFilenames` runs. -/
theorem c5_setsongs_recorded :
    ∀ (songs : List Song),
      (setSongsCompute songs).1 =
        (((songs.filter songCounted).map (fun s => s.filesize.toNat)).sum) % 2 ^ 64
      ∧ ((((songs.filter songCounted).map (fun s => s.filesize.toNat)).sum) < 2 ^ 64 →
          (setSongsCompute songs).1 =
            ((songs.filter songCounted).map (fun s => s.filesize.toNat)).sum)
      ∧ (setSongsCompute songs).2 = (songs.filter songKept).map (fun s => s.url.localFile)
      ∧ ∀ (fs : String → FSNode) (dest : Destination) (st : DialogState),
          (setSongs fs dest songs st).filenames =
            (songs.filter songKept).map (fun s => s.url.localFile)
          ∧ (setSongs fs dest songs st).totalSize = (setSongsCompute songs).1 := by
  intro songs
  have h := setSongs_fold songs 0 [] (by positivity)
  have h1 : (setSongsCompute songs).1 =
      (((songs.filter songCounted).map (fun s => s.filesize.toNat)).sum) % 2 ^ 64 := by
    rw [setSongsCompute, h]
    simp
  have h2 : (setSongsCompute songs).2 =
      (songs.filter songKept).map (fun s => s.url.localFile) := by
    rw [setSongsCompute, h]
    simp
  refine ⟨h1, ?_, h2, ?_⟩
  · intro hlt
    rw [h1, Nat.mod_eq_of_lt hlt]
  · intro fs dest st
    unfold setSongs setFilenames
    dsimp only
    constructor
    · rw [(updatePreviews_preserved _ _).2.1, h2]
    · exact (updatePreviews_preserved _ _).2.2.2.1

/-- Witness for C5: one local 100-byte song; the sum fits, so the recorded
total is exactly 100. -/
theorem c5_setsongs_recorded_witness :
    ((([songLocal].filter songCounted).map (fun s => s.filesize.toNat)).sum) < 2 ^ 64
    ∧ (setSongsCompute [songLocal]).1 =
        (([songLocal].filter songCounted).map (fun s => s.filesize.toNat)).sum :=
  ⟨by decide, (c5_setsongs_recorded [songLocal]).2.1 (by decide)⟩

/-- C6: the default naming template is exactly
`%artist/%album{ (Disc %disc)}/{%track - }%title.%extension`, and `Reset`
restores the naming field to it with replace-non-ASCII, replace-spaces and
replace-the false, overwrite true and eject-after false. -/
theorem c6_default_format_reset :
    ∀ ui : DialogUi,
      (resetDialog ui).namingText =
        "%artist/%album\x7b (Disc %disc)\x7d/\x7b%track - \x7d%title.%extension"
      ∧ (resetDialog ui).namingText = kDefaultFormat
      ∧ (resetDialog ui).replaceAscii = false
      ∧ (resetDialog ui).replaceSpaces = false
      ∧ (resetDialog ui).replaceThe = false
      ∧ (resetDialog ui).overwrite = true
      ∧ (resetDialog ui).ejectAfter = false := by
  intro ui
  exact ⟨rfl, rfl, rfl, rfl, rfl, rfl, rfl⟩

/-- C7: a directory argument expands into exactly its readable entries
other than `.` and `..`, processed in order (up to the preview cap), and an
entry whose metadata is not a valid song is skipped while the remaining
entries are still processed. -/
theorem c7_directory_expansion_and_skip :
    (∀ (entries : List DirEntry) (st : List Song),
      loadPreview (FSNode.dir entries) st =
        if kNumberOfPreviews ≤ st.length then st else loadList (entryNodes entries) st)
    ∧ (∀ (song : Song) (rest : List FSNode) (st : List Song),
        song.valid = false →
        loadList (FSNode.file song :: rest) st = loadList rest st) := by
  constructor
  · intro entries st
    rw [loadPreview]
    split
    · rfl
    · exact loadEntries_eq_loadList entries st
  · intro song rest st h
    simp only [loadList, List.foldl_cons]
    congr 1
    rw [loadPreview]
    split
    · rfl
    · rw [if_neg (by simp [h])]

/-- Witness for C7: an unreadable entry contributes nothing and processing
continues with the rest of the list. -/
theorem c7_directory_expansion_and_skip_witness :
    songInvalid.valid = false
    ∧ loadList [FSNode.file songInvalid, FSNode.file songFoo] [] =
        loadList [FSNode.file songFoo] [] :=
  ⟨rfl, c7_directory_expansion_and_skip.2 songInvalid [FSNode.file songFoo] [] rfl⟩

/-- C8: `accept` run after `UpdatePreviews` constructs exactly one batch,
carrying the dialog's current configuration: the format compiled from the
naming text and the three sanitization flags, copy iff the after-copying
selector is at index 0, the current overwrite flag, the stored filenames
and the current eject-after flag — and starts exactly that batch. -/
theorem c8_accept_starts_once (st : DialogState) (dest : Destination) :
    (acceptDialog (updatePreviews st dest) dest).started =
      [{ storage := dest.storage
         format := formatFromUi st.ui
         copy := st.ui.aftercopyingIndex == 0
         overwrite := st.ui.overwrite
         filenames := st.filenames
         eject_after := st.ui.ejectAfter }] := by
  obtain ⟨h1, h2, -, -, h5, h6, h7, -⟩ := updatePreviews_preserved st dest
  simp [acceptDialog, h1, h2, h5, h6, h7]

/-- C9: the preview song list never exceeds `kNumberOfPreviews = 10`
entries — after any `SetFilenames`, and after any `LoadPreviewSongs` call
from a state within the cap. -/
theorem c9_preview_cap :
    (∀ (fs : String → FSNode) (dest : Destination) (filenames : List String)
        (total : Nat) (st : DialogState),
      (setFilenames fs dest filenames total st).previewSongs.length ≤ kNumberOfPreviews)
    ∧ (∀ (node : FSNode) (st : List Song),
        st.length ≤ kNumberOfPreviews →
        (loadPreview node st).length ≤ kNumberOfPreviews) := by
  constructor
  · intro fs dest filenames total st
    have hps : (setFilenames fs dest filenames total st).previewSongs =
        loadList ((filenames.take (min filenames.length kNumberOfPreviews)).map fs) [] := by
      unfold setFilenames
      dsimp only
      exact (updatePreviews_preserved _ _).2.2.1
    rw [hps]
    exact loadList_le _ [] (by simp [kNumberOfPreviews])
  · exact loadPreview_le

/-- Witness for C9: loading one file from an empty preview list stays
within the cap. -/
theorem c9_preview_cap_witness :
    ([] : List Song).length ≤ kNumberOfPreviews
    ∧ (loadPreview (FSNode.file songFoo) []).length ≤ kNumberOfPreviews :=
  ⟨by decide, c9_preview_cap.2 (FSNode.file songFoo) [] (by decide)⟩

/-- C10: with an invalid template, `UpdatePreviews` disables Ok and returns
before touching the preview display — the preview list contents and the
visibility of the preview and naming groups are exactly as before. -/
theorem c10_invalid_format_frame (st : DialogState) (dest : Destination)
    (h : (formatFromUi st.ui).IsValid = false) :
    (updatePreviews st dest).ui.okEnabled = false
    ∧ (updatePreviews st dest).ui.previewItems = st.ui.previewItems
    ∧ (updatePreviews st dest).ui.previewGroupVisible = st.ui.previewGroupVisible
    ∧ (updatePreviews st dest).ui.namingGroupVisible = st.ui.namingGroupVisible := by
  unfold updatePreviews
  dsimp only
  split <;> split <;> simp_all

/-- Witness for C10: a template with no tag reference is invalid, and the
stale preview list survives the call untouched. -/
theorem c10_invalid_format_frame_witness :
    (formatFromUi stInvalid.ui).IsValid = false
    ∧ ((updatePreviews stInvalid destSmall).ui.okEnabled = false
       ∧ (updatePreviews stInvalid destSmall).ui.previewItems = stInvalid.ui.previewItems
       ∧ (updatePreviews stInvalid destSmall).ui.previewGroupVisible =
           stInvalid.ui.previewGroupVisible
       ∧ (updatePreviews stInvalid destSmall).ui.namingGroupVisible =
           stInvalid.ui.namingGroupVisible) :=
  ⟨by decide, c10_invalid_format_frame stInvalid destSmall (by decide)⟩

end Clementine
